import Mathlib

/-!
Verification of the wire framing layer and the market-data response codec
of a compact quotation-protocol client (a single `api.py`).  The decoders
are shallowly embedded: payload buffers are lists of byte values
(naturals below 256), the mutable reader of the source becomes an
explicit `Cursor` threaded through each read, prices become exact
rationals, and the blocking socket becomes an explicit list of the chunks
each `recv` call returns.  The external `BinaryReader` module is not part
of the available source; its primitives are modelled from the
specification of the cursor boundary and are marked as such below.
-/

/-- A byte buffer: each element is one byte value (0..255). -/
abbrev ByteBuf := List Nat

/-- Modelled from the spec: the external cursor module (BinaryReader) is a
positionable reader over a byte buffer.  `buf` is the whole payload,
`pos` the current absolute position. -/
structure Cursor where
  buf : ByteBuf
  pos : Nat
deriving DecidableEq, Repr

/-- Value of a little-endian byte list. -/
def leVal (bs : ByteBuf) : Nat := bs.foldr (fun b acc => b + 256 * acc) 0

/-- Modelled from the spec: raw N-byte read; fails when fewer than `n`
bytes remain, advancing the position by `n` otherwise. -/
def Cursor.read (c : Cursor) (n : Nat) : Option (ByteBuf × Cursor) :=
  if c.pos + n ≤ c.buf.length then
    some ((c.buf.drop c.pos).take n, ⟨c.buf, c.pos + n⟩)
  else none

/-- Modelled from the spec: unsigned 8-bit read. -/
def Cursor.u8 (c : Cursor) : Option (Nat × Cursor) :=
  (c.read 1).map (fun p => (leVal p.1, p.2))

/-- Modelled from the spec: unsigned little-endian 16-bit read. -/
def Cursor.u16 (c : Cursor) : Option (Nat × Cursor) :=
  (c.read 2).map (fun p => (leVal p.1, p.2))

/-- Modelled from the spec: unsigned little-endian 32-bit read. -/
def Cursor.u32 (c : Cursor) : Option (Nat × Cursor) :=
  (c.read 4).map (fun p => (leVal p.1, p.2))

/-- Two-complement reading of a 16-bit value. -/
def toSigned16 (v : Nat) : Int :=
  if v < 32768 then (v : Int) else (v : Int) - 65536

/-- Modelled from the spec: signed little-endian 16-bit read. -/
def Cursor.i16 (c : Cursor) : Option (Int × Cursor) :=
  (c.read 2).map (fun p => (toSigned16 (leVal p.1), p.2))

/-- Modelled from the spec: 32-bit float read.  The decoders perform no
arithmetic on any float they read (they only store it), so the value is
carried as its raw little-endian 32-bit pattern. -/
def Cursor.f32 (c : Cursor) : Option (Nat × Cursor) :=
  (c.read 4).map (fun p => (leVal p.1, p.2))

/-- Modelled from the spec: advance the position by `n` bytes without
reading (a seek, which itself cannot fail). -/
def Cursor.skip (c : Cursor) (n : Nat) : Cursor := ⟨c.buf, c.pos + n⟩

/-- Continuation bytes of the variable-length integer: each byte carries
7 low-order payload bits and a high continuation bit; `shift` is the bit
position of the next group, `acc` the magnitude so far, `k` the number of
bytes consumed so far.  Returns the magnitude and total byte count. -/
def vintCont : ByteBuf → Nat → Nat → Nat → Option (Nat × Nat)
  | [], _, _, _ => none
  | b :: rest, shift, acc, k =>
    let acc := acc + (b % 128) * 2 ^ shift
    if 128 ≤ b then vintCont rest (shift + 7) acc (k + 1) else some (acc, k + 1)

/-- Modelled from the spec: the signed variable-length integer primitive
of the external cursor module (self-terminating LEB128-family encoding,
one or more bytes).  First byte: bit 7 = continuation, bit 6 = sign,
low 6 bits = least-significant magnitude bits; each continuation byte:
bit 7 = continuation, low 7 bits = next magnitude bits. -/
def Cursor.vint (c : Cursor) : Option (Int × Cursor) :=
  match c.buf.drop c.pos with
  | [] => none
  | b0 :: rest =>
    if 128 ≤ b0 then
      match vintCont rest 6 (b0 % 64) 1 with
      | none => none
      | some (m, k) =>
        some (if b0 / 64 % 2 = 1 then -(m : Int) else (m : Int), ⟨c.buf, c.pos + k⟩)
    else
      some (if b0 / 64 % 2 = 1 then -(b0 % 64 : Nat) else (b0 % 64 : Nat), ⟨c.buf, c.pos + 1⟩)

/-- A successful variable-length read consumes at least one byte and
leaves the buffer unchanged. -/
theorem vintCont_consumes {bs : ByteBuf} {shift acc k m k2 : Nat}
    (h : vintCont bs shift acc k = some (m, k2)) : k < k2 := by
  induction bs generalizing shift acc k with
  | nil => simp [vintCont] at h
  | cons b rest ih =>
    simp only [vintCont] at h
    split at h
    · exact Nat.lt_of_succ_le (Nat.le_of_lt (ih h))
    · simp only [Option.some.injEq, Prod.mk.injEq] at h
      omega

/-- A successful variable-length read strictly advances the position and
keeps the same buffer. -/
theorem Cursor.vint_advances {c c2 : Cursor} {v : Int}
    (h : c.vint = some (v, c2)) : c.pos < c2.pos ∧ c2.buf = c.buf := by
  unfold Cursor.vint at h
  split at h
  · exact absurd h (by simp)
  · split at h
    · split at h
      · exact absurd h (by simp)
      · rename_i m k heq
        simp only [Option.some.injEq, Prod.mk.injEq] at h
        obtain ⟨-, h2⟩ := h
        subst h2
        refine ⟨?_, rfl⟩
        have := vintCont_consumes heq
        simp only []
        omega
    · simp only [Option.some.injEq, Prod.mk.injEq] at h
      obtain ⟨-, h2⟩ := h
      subst h2
      refine ⟨?_, rfl⟩
      simp only []
      omega

/-!
## Frame transport

The source reads a fixed 16-byte response header, unpacks (little
endian) three reserved 32-bit fields plus a 16-bit compressed size and a
16-bit uncompressed size, then loops:

    data = bytes()
    remained_size = zipped_size
    while remained_size > 0:
        data += self._client.recv(remained_size)
        remained_size -= len(data)

and finally inflates `data` when the two sizes differ.  The stream is
modelled as the list of byte chunks that successive `recv` calls return
(a real `recv` may return fewer bytes than requested).  The zlib
inflater is an external library; it is passed in as a function, with
`none` standing for a raised decompression error.
-/

/-- Python struct unpacking of the 16-byte response header: returns the
compressed and uncompressed sizes (bytes 12-13 and 14-15, little
endian); fails when the header read returned fewer than 16 bytes. -/
def parseRspHeader (h : ByteBuf) : Option (Nat × Nat) :=
  if h.length = 16 then
    some (leVal ((h.drop 12).take 2), leVal ((h.drop 14).take 2))
  else none

/-- The accumulation loop of the receive path, exactly as in the source:
after appending a chunk, the remaining count is decremented by the length
of the whole accumulated buffer (`remained_size -= len(data)`), not by
the length of the chunk just received.  One list element is consumed per
loop iteration; an exhausted list means the modelled stream produced no
further event (`none`). -/
def recvLoop : List ByteBuf → Int → ByteBuf → Option ByteBuf
  | [], remained, data => if remained ≤ 0 then some data else none
  | chunk :: rest, remained, data =>
    if remained ≤ 0 then some data
    else recvLoop rest (remained - ((data.length : Int) + (chunk.length : Int))) (data ++ chunk)

/-- Errors of the receive path: a short or missing header, a stream that
stopped before the loop finished, and a decompression failure. -/
inductive RecvErr
  | framing
  | closedStream
  | corruptFrame
deriving DecidableEq, Repr

/-- The receive path (`_recv` in the source): read the 16-byte header
from the first stream event, run the accumulation loop over the
remaining events, and inflate only when the two declared sizes differ.
`inflate` is the external zlib boundary (`none` = decompression error).
No comparison of the inflated length with the declared uncompressed size
is present in the source. -/
def recv (inflate : ByteBuf → Option ByteBuf) :
    List ByteBuf → Except RecvErr ByteBuf
  | [] => .error .framing
  | header :: chunks =>
    match parseRspHeader header with
    | none => .error .framing
    | some (zipped, unzipped) =>
      match recvLoop chunks (zipped : Int) [] with
      | none => .error .closedStream
      | some data =>
        if zipped ≠ unzipped then
          match inflate data with
          | none => .error .corruptFrame
          | some out => .ok out
        else .ok data

/-- A response header declaring compressed and uncompressed sizes 3. -/
def hdr33 : ByteBuf := List.replicate 12 0 ++ [3, 0, 3, 0]

/-- C1: the claim says the receive loop accumulates exactly the declared
number of payload bytes even when the stream delivers 1-byte chunks.  On
the code this fails: with declared size 3 and two legal 1-byte chunks
(1 byte for a request of 3, then 1 byte for a request of 2), the loop
subtracts the whole accumulated length each round (3 - 1 = 2, then
2 - 2 = 0) and exits with only 2 of the 3 payload bytes, which receive
then returns. -/
theorem recv_short_read_loses_bytes :
    recv (fun d => some d) [hdr33, [7], [8]] = .ok [7, 8] ∧
      ([7, 8] : ByteBuf).length ≠ 3 ∧
      recvLoop [[7], [8]] 3 [] = some [7, 8] := by
  refine ⟨rfl, by decide, by decide⟩

/-- C6: when the header declares equal compressed and uncompressed
sizes, receive returns whatever the accumulation loop produced,
unchanged, for every possible inflater — no decompression is attempted. -/
theorem recv_passthrough_when_sizes_equal
    (inflate : ByteBuf → Option ByteBuf) (header : ByteBuf)
    (chunks : List ByteBuf) (z : Nat) (data : ByteBuf)
    (hh : parseRspHeader header = some (z, z))
    (hl : recvLoop chunks (z : Int) [] = some data) :
    recv inflate (header :: chunks) = .ok data := by
  simp [recv, hh, hl]

/-- A response header declaring compressed and uncompressed sizes 2. -/
def hdr22 : ByteBuf := List.replicate 12 0 ++ [2, 0, 2, 0]

/-- Witness for C6 at a concrete frame: a 2-byte payload delivered in
one chunk is returned verbatim, even by a receive whose inflater would
fail on any input. -/
theorem recv_passthrough_when_sizes_equal_witness :
    recv (fun _ => none) [hdr22, [9, 9]] = .ok [9, 9] :=
  recv_passthrough_when_sizes_equal (fun _ => none) hdr22 [[9, 9]] 2 [9, 9]
    (by decide) (by decide)

/-- A response header declaring compressed size 1 and uncompressed
size 5. -/
def hdr15 : ByteBuf := List.replicate 12 0 ++ [1, 0, 5, 0]

/-- C5 counterexample: the claim says that an inflated length different
from the declared uncompressed length raises a corrupt-frame error.  On
the code there is no such check: with a header declaring uncompressed
size 5 and an inflater returning 3 bytes (a behaviour a real zlib stream
can exhibit, since the header field is independent of the payload),
receive returns the 3 bytes successfully. -/
theorem recv_no_inflated_length_check :
    recv (fun _ => some [1, 2, 3]) [hdr15, [9]] = .ok [1, 2, 3] ∧
      ([1, 2, 3] : ByteBuf).length ≠ 5 := by
  refine ⟨rfl, by decide⟩

/-- C5 amended: when the declared sizes differ, receive hands the
accumulated payload to the inflater and returns its output unchecked; a
decompression failure is a fatal corrupt-frame error, but the inflated
length is never compared with the declared uncompressed size. -/
theorem recv_inflates_unchecked
    (inflate : ByteBuf → Option ByteBuf) (header : ByteBuf)
    (chunks : List ByteBuf) (z u : Nat) (data : ByteBuf)
    (hh : parseRspHeader header = some (z, u)) (hzu : z ≠ u)
    (hl : recvLoop chunks (z : Int) [] = some data) :
    recv inflate (header :: chunks) =
      (match inflate data with
       | none => .error .corruptFrame
       | some out => .ok out) := by
  simp [recv, hh, hl, hzu]

/-- Witness for the amended C5 at a concrete frame: sizes 1 and 5
differ, so the single accumulated byte is passed to the inflater and its
3-byte output is returned. -/
theorem recv_inflates_unchecked_witness :
    recv (fun _ => some [1, 2, 3]) [hdr15, [9]] =
      (match (fun (_ : ByteBuf) => some [1, 2, 3]) [9] with
       | none => Except.error RecvErr.corruptFrame
       | some out => Except.ok out) :=
  recv_inflates_unchecked (fun _ => some [1, 2, 3]) hdr15 [[9]] 1 5 [9]
    (by decide) (by decide) (by decide)

/-!
## Date, time and price primitives of the decoders
-/

/-- Gregorian leap-year rule, as used by the Python datetime library. -/
def isLeapYear (y : Nat) : Bool :=
  (y % 4 = 0 && y % 100 ≠ 0) || y % 400 = 0

/-- Number of days of a month, as used by the Python datetime library. -/
def daysInMonth (y m : Nat) : Nat :=
  if m = 2 then (if isLeapYear y then 29 else 28)
  else if m = 4 ∨ m = 6 ∨ m = 9 ∨ m = 11 then 30 else 31

/-- A value of the Python datetime library: a validated calendar date
with an hour and a minute (the decoders never set seconds). -/
structure PyDatetime where
  year : Nat
  month : Nat
  day : Nat
  hour : Nat
  minute : Nat
deriving DecidableEq, Repr

/-- Construction of a Python datetime: the library validates the year
(1..9999), month, day-of-month, hour and minute, raising a value error
(here `none`) on an impossible combination. -/
def mkDatetime (y m d hh mm : Nat) : Option PyDatetime :=
  if 1 ≤ y ∧ y ≤ 9999 ∧ 1 ≤ m ∧ m ≤ 12 ∧ 1 ≤ d ∧ d ≤ daysInMonth y m ∧
      hh ≤ 23 ∧ mm ≤ 59 then
    some ⟨y, m, d, hh, mm⟩
  else none

/-- A value of the Python time-of-day type (hour and minute). -/
structure PyTime where
  hour : Nat
  minute : Nat
deriving DecidableEq, Repr

/-- Construction of a Python time-of-day value, validating its fields. -/
def mkPyTime (h m : Nat) : Option PyTime :=
  if h ≤ 23 ∧ m ≤ 59 then some ⟨h, m⟩ else none

/-- The closed set of K-line period categories, with the request values
of the source. -/
inductive KLineCategory
  | K5
  | K15
  | K30
  | K60
  | KDaily
  | KWeek
  | KMonth
  | PerMinute
  | K1
  | KDay
  | KSeason
  | KYear
deriving DecidableEq, Repr

/-- The wire value of each category (the Enum value of the source). -/
def KLineCategory.val : KLineCategory → Nat
  | .K5 => 0
  | .K15 => 1
  | .K30 => 2
  | .K60 => 3
  | .KDaily => 4
  | .KWeek => 5
  | .KMonth => 6
  | .PerMinute => 7
  | .K1 => 8
  | .KDay => 9
  | .KSeason => 10
  | .KYear => 11

/-- The sub-daily test of the source: category value below the daily
category, or the per-minute or 1-minute category. -/
def KLineCategory.isSubDaily (category : KLineCategory) : Bool :=
  decide (category.val < KLineCategory.KDaily.val) ||
    decide (category = KLineCategory.PerMinute) ||
    decide (category = KLineCategory.K1)

/-- Decoder errors: an impossible date or time handed to the datetime
library (a Python value error), or a cursor read past the end of the
buffer. -/
inductive DecodeErr
  | valueError
  | outOfRange
deriving DecidableEq, Repr

/-- Lift a cursor read into the decoder error monad: a failed read is an
out-of-range error. -/
def liftOOR {α : Type} : Option α → Except DecodeErr α
  | none => .error .outOfRange
  | some a => .ok a

/-- The bar date/time decoder (`_get_datetime`): sub-daily categories
read two 16-bit fields (a bit-packed date and a minute-of-day count);
daily-and-above categories read one 32-bit packed decimal date and fix
the time at 15:00. -/
def _get_datetime (category : KLineCategory) (c : Cursor) :
    Except DecodeErr (PyDatetime × Cursor) :=
  if category.isSubDaily then
    match c.u16 with
    | none => .error .outOfRange
    | some (zipday, c) =>
      match c.u16 with
      | none => .error .outOfRange
      | some (tminutes, c) =>
        match mkDatetime ((zipday >>> 11) + 2004) (zipday % 2048 / 100)
            (zipday % 2048 % 100) (tminutes / 60) (tminutes % 60) with
        | none => .error .valueError
        | some dt => .ok (dt, c)
  else
    match c.u32 with
    | none => .error .outOfRange
    | some (zipday, c) =>
      match mkDatetime (zipday / 10000) (zipday % 10000 / 100) (zipday % 100)
          15 0 with
      | none => .error .valueError
      | some dt => .ok (dt, c)

/-- The tick time decoder (`_get_time`): a 16-bit minute-of-day count. -/
def _get_time (c : Cursor) : Option (PyTime × Cursor) :=
  match c.u16 with
  | none => none
  | some (tminutes, c) =>
    match mkPyTime (tminutes / 60) (tminutes % 60) with
    | none => none
    | some tm => some (tm, c)

/-- Quote price reconstruction (`_calc_price`): base plus offset, in
hundredths.  The Python floats are modelled as exact rationals. -/
def _calc_price (base_value offset : Int) : ℚ :=
  ((base_value : ℚ) + (offset : ℚ)) / 100

/-- Bar price reconstruction (`_calc_price1k`): base plus offset, in
thousandths.  The Python floats are modelled as exact rationals. -/
def _calc_price1k (base_value offset : Int) : ℚ :=
  ((base_value : ℚ) + (offset : ℚ)) / 1000

/-!
## K-line (bar) decoder
-/

/-- One decoded bar.  The advancing and declining issue counts are only
present under the index layout (`none` otherwise, matching the two dict
shapes of the source). -/
structure KBar where
  datetime : PyDatetime
  openPrice : ℚ
  closePrice : ℚ
  highPrice : ℚ
  lowPrice : ℚ
  vol : Nat
  amount : Nat
  upCount : Option Nat
  downCount : Option Nat
deriving DecidableEq, Repr

/-- The bar loop of `get_k_line`, one run per layout: per bar a
date/time, four signed variable-length deltas (open, close, high, low)
double-chained through `pre_diff_base`, two raw 32-bit floats, and under
the index layout (`isIndex = true`) two extra 16-bit counts.  The base
carried into the next bar is the accumulated open plus the close delta. -/
def kLineLoop (isIndex : Bool) (category : KLineCategory) :
    Nat → Int → Cursor → Except DecodeErr (List KBar × Cursor)
  | 0, _, c => .ok ([], c)
  | n + 1, pre_diff_base, c => do
    let (date, c) ← _get_datetime category c
    let (price_open_diff, c) ← liftOOR c.vint
    let (price_close_diff, c) ← liftOOR c.vint
    let (price_high_diff, c) ← liftOOR c.vint
    let (price_low_diff, c) ← liftOOR c.vint
    let price_open := _calc_price1k price_open_diff pre_diff_base
    let pod := price_open_diff + pre_diff_base
    let new_base := pod + price_close_diff
    let (vol, c) ← liftOOR c.f32
    let (amount, c) ← liftOOR c.f32
    let (counts, c) ←
      if isIndex then do
        let (up, c) ← liftOOR c.u16
        let (down, c) ← liftOOR c.u16
        Except.ok (((some up : Option Nat), (some down : Option Nat)), c)
      else
        Except.ok (((none : Option Nat), (none : Option Nat)), c)
    let (rest, c) ← kLineLoop isIndex category n new_base c
    .ok ({ datetime := date, openPrice := price_open,
           closePrice := _calc_price1k pod price_close_diff,
           highPrice := _calc_price1k pod price_high_diff,
           lowPrice := _calc_price1k pod price_low_diff,
           vol := vol, amount := amount,
           upCount := counts.1, downCount := counts.2 } :: rest, c)

/-- One whole-payload parse attempt of `get_k_line` under one layout:
read the bar count from position 0, then run the bar loop with initial
chain base 0. -/
def kParse (isIndex : Bool) (category : KLineCategory) (buf : ByteBuf) :
    Except DecodeErr (List KBar × Cursor) := do
  let (count, c) ← liftOOR (Cursor.u16 ⟨buf, 0⟩)
  kLineLoop isIndex category count 0 c

/-- The K-line decoder: speculatively parse the whole payload under the
index layout; when that attempt raises a value error (an impossible
calendar date), reset the position to 0 and re-parse the whole payload
under the non-index layout; any other error propagates. -/
def get_k_line (category : KLineCategory) (buf : ByteBuf) :
    Except DecodeErr (List KBar) :=
  match kParse true category buf with
  | .ok (klines, _) => .ok klines
  | .error .valueError => (kParse false category buf).map Prod.fst
  | .error .outOfRange => .error .outOfRange

/-- Reduction of a successful bind in the decoder error monad. -/
@[simp] theorem exceptOkBind {ε α β : Type} (a : α) (f : α → Except ε β) :
    (Except.ok a >>= f : Except ε β) = f a := rfl

/-- Reduction of a failed bind in the decoder error monad. -/
@[simp] theorem exceptErrorBind {ε α β : Type} (e : ε) (f : α → Except ε β) :
    (Except.error e >>= f : Except ε β) = Except.error e := rfl

/-- Little-endian 4-byte encoding of a 32-bit value, for concrete test
frames. -/
def le32 (n : Nat) : ByteBuf :=
  [n % 256, n / 256 % 256, n / 65536 % 256, n / 16777216 % 256]

/-- C3: the decoder first parses the whole payload assuming the index
layout; on success that result is returned; when the attempt fails with
a value error (impossible calendar date) the entire payload is re-parsed
from position 0 (count included) under the non-index layout; an
out-of-range error is not recovered. -/
theorem get_k_line_speculative_retry (category : KLineCategory) (buf : ByteBuf) :
    (∀ klines c, kParse true category buf = .ok (klines, c) →
      get_k_line category buf = .ok klines) ∧
    (kParse true category buf = .error .valueError →
      get_k_line category buf = (kParse false category buf).map Prod.fst) ∧
    (kParse true category buf = .error .outOfRange →
      get_k_line category buf = .error .outOfRange) := by
  refine ⟨fun klines c h => ?_, fun h => ?_, fun h => ?_⟩ <;>
    simp [get_k_line, h]

/-- A two-bar non-index daily payload whose index-layout parse attempt
hits an impossible date at the second bar: under the index layout the
two extra counts of bar 1 eat the first two bytes of the date of bar 2,
so the second date field is read from four zero bytes (year 0). -/
def kAmbiguousBuf : ByteBuf :=
  [2, 0] ++ le32 20240102 ++ [1, 2, 3, 4] ++ List.replicate 8 0 ++
    le32 20240103 ++ [0, 0, 0, 0] ++ List.replicate 8 0

/-- Witness for C3 at the concrete ambiguous payload: the index attempt
fails with a value error, the decoder returns the non-index re-parse of
the whole payload, and that re-parse succeeds. -/
theorem get_k_line_speculative_retry_witness :
    kParse true .KDaily kAmbiguousBuf = .error .valueError ∧
      get_k_line .KDaily kAmbiguousBuf =
        (kParse false .KDaily kAmbiguousBuf).map Prod.fst ∧
      (kParse false .KDaily kAmbiguousBuf).isOk = true := by
  have h : kParse true .KDaily kAmbiguousBuf = .error .valueError := rfl
  exact ⟨h, (get_k_line_speculative_retry .KDaily kAmbiguousBuf).2.1 h, rfl⟩

/-- C2: the double chain of the bar decoder.  With chain base `b`
entering a bar whose four deltas are `o`, `cl`, `hi`, `lo`, the bar has
open `(b + o)/1000`, close `(b + o + cl)/1000`, high `(b + o + hi)/1000`
and low `(b + o + lo)/1000`, and the rest of the bars are decoded with
chain base `b + o + cl` — under both layouts; and both whole-payload
parses start the chain at base 0. -/
theorem k_line_double_chain (category : KLineCategory) (n : Nat) (b : Int)
    (c c1 c2 c3 c4 c5 c6 c7 c8 c9 : Cursor) (dt : PyDatetime)
    (o cl hi lo : Int) (vol amount up down : Nat)
    (buf : ByteBuf) (n0 : Nat) (c0 : Cursor)
    (hdt : _get_datetime category c = .ok (dt, c1))
    (ho : c1.vint = some (o, c2)) (hcl : c2.vint = some (cl, c3))
    (hhi : c3.vint = some (hi, c4)) (hlo : c4.vint = some (lo, c5))
    (hv : c5.f32 = some (vol, c6)) (ha : c6.f32 = some (amount, c7))
    (hu : c7.u16 = some (up, c8)) (hd : c8.u16 = some (down, c9))
    (hcount : Cursor.u16 ⟨buf, 0⟩ = some (n0, c0)) :
    kLineLoop false category (n + 1) b c =
      (kLineLoop false category n (b + o + cl) c7).map
        (fun rc => ({ datetime := dt,
                      openPrice := ((b + o : Int) : ℚ) / 1000,
                      closePrice := ((b + o + cl : Int) : ℚ) / 1000,
                      highPrice := ((b + o + hi : Int) : ℚ) / 1000,
                      lowPrice := ((b + o + lo : Int) : ℚ) / 1000,
                      vol := vol, amount := amount,
                      upCount := none, downCount := none } :: rc.1, rc.2)) ∧
    kLineLoop true category (n + 1) b c =
      (kLineLoop true category n (b + o + cl) c9).map
        (fun rc => ({ datetime := dt,
                      openPrice := ((b + o : Int) : ℚ) / 1000,
                      closePrice := ((b + o + cl : Int) : ℚ) / 1000,
                      highPrice := ((b + o + hi : Int) : ℚ) / 1000,
                      lowPrice := ((b + o + lo : Int) : ℚ) / 1000,
                      vol := vol, amount := amount,
                      upCount := some up, downCount := some down } :: rc.1, rc.2)) ∧
    kParse false category buf = kLineLoop false category n0 0 c0 ∧
    kParse true category buf = kLineLoop true category n0 0 c0 := by
  have hb : o + b + cl = b + o + cl := by ring
  refine ⟨?_, ?_, ?_, ?_⟩
  · simp only [kLineLoop, hdt, ho, hcl, hhi, hlo, hv, ha, liftOOR, exceptOkBind,
      Bool.false_eq_true, if_false, hb, _calc_price1k]
    cases hrec : kLineLoop false category n (b + o + cl) c7 with
    | error e => simp [hrec, Except.map]
    | ok rc =>
      simp only [hrec, exceptOkBind, Except.map, KBar.mk.injEq, Prod.mk.injEq,
        List.cons.injEq, Except.ok.injEq, eq_self_iff_true, true_and, and_true]
      push_cast
      refine ⟨?_, ?_, ?_, ?_⟩ <;> ring
  · simp only [kLineLoop, hdt, ho, hcl, hhi, hlo, hv, ha, hu, hd, liftOOR,
      exceptOkBind, if_true, hb, _calc_price1k]
    cases hrec : kLineLoop true category n (b + o + cl) c9 with
    | error e => simp [hrec, Except.map]
    | ok rc =>
      simp only [hrec, exceptOkBind, Except.map, KBar.mk.injEq, Prod.mk.injEq,
        List.cons.injEq, Except.ok.injEq, eq_self_iff_true, true_and, and_true]
      push_cast
      refine ⟨?_, ?_, ?_, ?_⟩ <;> ring
  · simp [kParse, hcount, liftOOR]
  · simp [kParse, hcount, liftOOR]

/-- A one-bar non-index daily payload body (no count): date 2024-01-02,
then deltas 100 (two-byte encoding), 20, 3, 4, two zero floats, and two
trailing 16-bit values 7 and 9 for the index-layout conjuncts. -/
def kChainBuf : ByteBuf :=
  le32 20240102 ++ [164, 1] ++ [20, 3, 4] ++ List.replicate 8 0 ++ [7, 0, 9, 0]

/-- A payload head declaring one bar. -/
def kCountBuf : ByteBuf := [1, 0]

/-- Witness for C2 at the concrete bar of `kChainBuf`: deltas 100 and 20
on the first bar make its open `(0 + 100)/1000`, its close
`(0 + 100 + 20)/1000`, and hand chain base `0 + 100 + 20` to the rest of
the bars, under both layouts; both whole-payload parses start at base 0. -/
theorem k_line_double_chain_witness :
    kLineLoop false .KDaily 1 0 ⟨kChainBuf, 0⟩ =
      (kLineLoop false .KDaily 0 (0 + 100 + 20) ⟨kChainBuf, 17⟩).map
        (fun rc => ({ datetime := ⟨2024, 1, 2, 15, 0⟩,
                      openPrice := ((0 + 100 : Int) : ℚ) / 1000,
                      closePrice := ((0 + 100 + 20 : Int) : ℚ) / 1000,
                      highPrice := ((0 + 100 + 3 : Int) : ℚ) / 1000,
                      lowPrice := ((0 + 100 + 4 : Int) : ℚ) / 1000,
                      vol := 0, amount := 0,
                      upCount := none, downCount := none } :: rc.1, rc.2)) ∧
    kLineLoop true .KDaily 1 0 ⟨kChainBuf, 0⟩ =
      (kLineLoop true .KDaily 0 (0 + 100 + 20) ⟨kChainBuf, 21⟩).map
        (fun rc => ({ datetime := ⟨2024, 1, 2, 15, 0⟩,
                      openPrice := ((0 + 100 : Int) : ℚ) / 1000,
                      closePrice := ((0 + 100 + 20 : Int) : ℚ) / 1000,
                      highPrice := ((0 + 100 + 3 : Int) : ℚ) / 1000,
                      lowPrice := ((0 + 100 + 4 : Int) : ℚ) / 1000,
                      vol := 0, amount := 0,
                      upCount := some 7, downCount := some 9 } :: rc.1, rc.2)) ∧
    kParse false .KDaily kCountBuf = kLineLoop false .KDaily 1 0 ⟨kCountBuf, 2⟩ ∧
    kParse true .KDaily kCountBuf = kLineLoop true .KDaily 1 0 ⟨kCountBuf, 2⟩ :=
  k_line_double_chain .KDaily 0 0 ⟨kChainBuf, 0⟩ ⟨kChainBuf, 4⟩ ⟨kChainBuf, 6⟩
    ⟨kChainBuf, 7⟩ ⟨kChainBuf, 8⟩ ⟨kChainBuf, 9⟩ ⟨kChainBuf, 13⟩ ⟨kChainBuf, 17⟩
    ⟨kChainBuf, 19⟩ ⟨kChainBuf, 21⟩ ⟨2024, 1, 2, 15, 0⟩ 100 20 3 4 0 0 7 9
    kCountBuf 1 ⟨kCountBuf, 2⟩ rfl rfl rfl rfl rfl rfl rfl rfl rfl rfl

/-- C7: the bar timestamp decoder has exactly two encodings.  For a
sub-daily category it reads two 16-bit fields and builds the datetime
from `(zipday >> 11) + 2004`, `(zipday mod 2048) div 100`,
`(zipday mod 2048) mod 100`, `tminutes div 60` and `tminutes mod 60`;
for a daily-and-above category it reads one 32-bit decimal `YYYYMMDD`
value and fixes the time at 15:00. -/
theorem get_datetime_two_encodings (catSub catDaily : KLineCategory)
    (c cA1 cA2 d dB1 : Cursor) (z t zd : Nat) (dtA dtB : PyDatetime)
    (hsub : catSub.isSubDaily = true)
    (hdaily : catDaily.isSubDaily = false)
    (hz : c.u16 = some (z, cA1)) (ht : cA1.u16 = some (t, cA2))
    (hmkA : mkDatetime ((z >>> 11) + 2004) (z % 2048 / 100) (z % 2048 % 100)
      (t / 60) (t % 60) = some dtA)
    (hzd : d.u32 = some (zd, dB1))
    (hmkB : mkDatetime (zd / 10000) (zd % 10000 / 100) (zd % 100) 15 0 = some dtB) :
    _get_datetime catSub c = .ok (dtA, cA2) ∧
      _get_datetime catDaily d = .ok (dtB, dB1) := by
  constructor
  · simp [_get_datetime, hsub, hz, ht, hmkA]
  · simp [_get_datetime, hdaily, hzd, hmkB]

/-- A packed sub-daily timestamp: zipday 20785 (high bits 10, mid value
305) and minute-of-day 571. -/
def zipdayBuf : ByteBuf := [49, 81, 59, 2]

/-- A packed daily date buffer: 20240102. -/
def dailyBuf : ByteBuf := le32 20240102

/-- Witness for C7: the 5-minute category decodes zipday 20785 and
minute-of-day 571 to 2014-03-05 09:31 (the spec example, high bits 10
and mid value 305), and the daily category decodes 20240102 to
2024-01-02 15:00. -/
theorem get_datetime_two_encodings_witness :
    _get_datetime .K5 ⟨zipdayBuf, 0⟩ = .ok (⟨2014, 3, 5, 9, 31⟩, ⟨zipdayBuf, 4⟩) ∧
      _get_datetime .KDaily ⟨dailyBuf, 0⟩ =
        .ok (⟨2024, 1, 2, 15, 0⟩, ⟨dailyBuf, 4⟩) :=
  get_datetime_two_encodings .K5 .KDaily ⟨zipdayBuf, 0⟩ ⟨zipdayBuf, 2⟩
    ⟨zipdayBuf, 4⟩ ⟨dailyBuf, 0⟩ ⟨dailyBuf, 4⟩ 20785 571 20240102
    ⟨2014, 3, 5, 9, 31⟩ ⟨2024, 1, 2, 15, 0⟩ rfl rfl rfl rfl rfl rfl rfl

/-!
## Quote timestamp formatting (`_format_time`)

The source converts the timestamp to its decimal string, takes the
digits before the last six as the hour part, and tests the two digits at
positions -6..-4: below 60 it emits them as the minute field and emits
int(timestamp[-4:] * 60) / 10000 as the seconds field; otherwise it
emits int(int(timestamp[-6:]) * 60 / 1000000) as the minute field and
(int(timestamp[-6:]) * 60 % 1000000) * 60 / 1000000 as the seconds
field.

The string is modelled as the list of decimal digits (most significant
first); slice arithmetic with negative indices clamps exactly like the
Nat subtraction used here.  Note that in the first branch the source
multiplies the STRING `timestamp[-4:]` by 60 — string repetition — and
only then parses it as an integer.
-/

/-- Decimal digits of `n`, most significant first, by fuel recursion
(`n` itself bounds the digit count). -/
def digitsAux : Nat → Nat → List Nat
  | 0, _ => []
  | fuel + 1, n => if n = 0 then [] else digitsAux fuel (n / 10) ++ [n % 10]

/-- The decimal-string view of a natural (Python `str`). -/
def pyStr (n : Nat) : List Nat :=
  if n = 0 then [0] else digitsAux n n

/-- Python `int` of a decimal digit string. -/
def strVal (ds : List Nat) : Nat := ds.foldl (fun a d => 10 * a + d) 0

/-- Python string repetition (`s * k`) on a digit string. -/
def pyRepeat (ds : List Nat) : Nat → List Nat
  | 0 => []
  | k + 1 => ds ++ pyRepeat ds k

/-- The three components of the formatted time string
"prefix:MM:SS.sss": the digits before the last six, the minute component
as a numeric value, and the exact value printed into the seconds field
(the `06.3f` rendering is presentation only and carries this value). -/
structure FormattedTime where
  hourDigits : List Nat
  minutes : Nat
  seconds : ℚ
deriving DecidableEq, Repr

/-- The quote timestamp formatter (`_format_time`) on the digit string
of a nonnegative timestamp.  `none` models the Python value error raised
by `int` on an empty minute slice (timestamps of at most 4 digits).  In
the branch taken when the minute slice is below 60, the seconds value is
`int(timestamp[-4:] * 60) / 10000` with `*` being string repetition,
exactly as in the source.  In the other branch the low six digits are
rescaled by 60; the float truncation `int(x)` there is exact Nat
division (the involved values are far below any float rounding
boundary). -/
def _format_time (t : Nat) : Option FormattedTime :=
  let s := pyStr t
  let n := s.length
  let mmSlice := (s.take (n - 4)).drop (n - 6)
  if mmSlice = [] then none
  else if strVal mmSlice < 60 then
    some { hourDigits := s.take (n - 6), minutes := strVal mmSlice,
           seconds := (strVal (pyRepeat (s.drop (n - 4)) 60) : ℚ) / 10000 }
  else
    some { hourDigits := s.take (n - 6),
           minutes := strVal (s.drop (n - 6)) * 60 / 1000000,
           seconds := ((strVal (s.drop (n - 6)) * 60 % 1000000) * 60 : ℚ) / 1000000 }

/-- Comparison of a scaled natural against the rational the formatter
stores in the seconds field. -/
theorem le_natCast_div_10000 (a n : Nat) (h : 10000 * a ≤ n) :
    (a : ℚ) ≤ (n : ℚ) / 10000 := by
  rw [le_div_iff₀ (by norm_num : (0 : ℚ) < 10000)]
  calc (a : ℚ) * 10000 = ((10000 * a : Nat) : ℚ) := by push_cast; ring
    _ ≤ (n : ℚ) := by exact_mod_cast h

set_option maxRecDepth 40000 in
/-- C8, failing input 10300001: the branch test and the minute field
behave as claimed (30 < 60 selects the first branch and 30 becomes the
minute), but the seconds field is not the fractional seconds of the last
four digits (which would be 1 * 60 / 10000 = 0.006): the string
repetition makes it the 237-digit value `int("0001" * 60) / 10000`,
which is not even below 60. -/
theorem format_time_string_repeat_bug :
    _format_time 10300001 =
      some { hourDigits := [1, 0], minutes := 30,
             seconds := (strVal (pyRepeat [0, 0, 0, 1] 60) : ℚ) / 10000 } ∧
      (60 : ℚ) ≤ (strVal (pyRepeat [0, 0, 0, 1] 60) : ℚ) / 10000 ∧
      ¬ (strVal (pyRepeat [0, 0, 0, 1] 60) : ℚ) / 10000 = (1 * 60 : ℚ) / 10000 := by
  refine ⟨rfl, ?_, ?_⟩
  · exact le_natCast_div_10000 60 _ (by decide)
  · intro hcontra
    have h60 : (60 : ℚ) ≤ (1 * 60 : ℚ) / 10000 := hcontra ▸
      le_natCast_div_10000 60 _ (by decide)
    norm_num at h60

/-!
## Quote snapshot decoder (`get_stock_quotes`)
-/

/-- The two-valued market tag of the source Enum. -/
inductive Market
  | SZ
  | SH
deriving DecidableEq, Repr

/-- Conversion of the 1-byte wire tag into the Enum (the Python Enum
call raises a value error on any other byte, here `none`). -/
def Market.ofByte (b : Nat) : Option Market :=
  if b = 0 then some .SZ else if b = 1 then some .SH else none

/-- One decoded quote record, fields in the order of the source dict. -/
structure Quote where
  market : Market
  stockCode : ByteBuf
  active1 : Nat
  price : ℚ
  yesterdayClose : ℚ
  todayOpen : ℚ
  highPrice : ℚ
  lowPrice : ℚ
  serverTime : FormattedTime
  reservedBytes1 : Int
  vol : Int
  curVol : Int
  amount : Nat
  innerDisc : Int
  outerDisc : Int
  reservedBytes2 : Int
  reservedBytes3 : Int
  bid1 : ℚ
  ask1 : ℚ
  bidVol1 : Int
  askVol1 : Int
  bid2 : ℚ
  ask2 : ℚ
  bidVol2 : Int
  askVol2 : Int
  bid3 : ℚ
  ask3 : ℚ
  bidVol3 : Int
  askVol3 : Int
  bid4 : ℚ
  ask4 : ℚ
  bidVol4 : Int
  askVol4 : Int
  bid5 : ℚ
  ask5 : ℚ
  bidVol5 : Int
  askVol5 : Int
  reservedBytes4 : Nat
  reservedBytes5 : Int
  reservedBytes6 : Int
  reservedBytes7 : Int
  reservedBytes8 : Int
  rate : ℚ
  active2 : Nat

/-- One bid/ask ladder level: a bid price delta, an ask price delta
(both against the shared base), then the two volumes, each one
variable-length integer — one of the five identical blocks of the
source dict. -/
def parseLevel (price : Int) (c : Cursor) : Option ((ℚ × ℚ × Int × Int) × Cursor) := do
  let (b, c) ← c.vint
  let (a, c) ← c.vint
  let (bv, c) ← c.vint
  let (av, c) ← c.vint
  some ((_calc_price price b, _calc_price price a, bv, av), c)

/-- Reads of the four primary price deltas and the timestamp (fields
previous close, open, high, low and server time of the source dict, in
order).  The timestamp formatter is applied to the timestamp integer
(negative timestamps, whose decimal form would carry a sign character,
are outside the digit-string model and fail the parse). -/
def parsePrimary (price : Int) (c : Cursor) :
    Option ((ℚ × ℚ × ℚ × ℚ × FormattedTime) × Cursor) := do
  let (d_yc, c) ← c.vint
  let (d_op, c) ← c.vint
  let (d_hi, c) ← c.vint
  let (d_lo, c) ← c.vint
  let (tv, c) ← c.vint
  let ft ← if 0 ≤ tv then _format_time tv.toNat else none
  some ((_calc_price price d_yc, _calc_price price d_op,
         _calc_price price d_hi, _calc_price price d_lo, ft), c)

/-- Reads of the volume block of the source dict, in order: reserved 1,
total volume, current volume, turnover (raw 32-bit float), inner and
outer volumes, reserved 2 and 3. -/
def parseVolumes (c : Cursor) :
    Option ((Int × Int × Int × Nat × Int × Int × Int × Int) × Cursor) := do
  let (r1, c) ← c.vint
  let (volv, c) ← c.vint
  let (cvol, c) ← c.vint
  let (amount, c) ← c.f32
  let (inn, c) ← c.vint
  let (outr, c) ← c.vint
  let (r2, c) ← c.vint
  let (r3, c) ← c.vint
  some ((r1, volv, cvol, amount, inn, outr, r2, r3), c)

/-- Reads of the trailing block of the source dict, in order: a 16-bit
reserved field, four reserved variable-length integers, the 16-bit
signed rate (divided by 100), and active2. -/
def parseTail (c : Cursor) :
    Option ((Nat × Int × Int × Int × Int × ℚ × Nat) × Cursor) := do
  let (r4, c) ← c.u16
  let (r5, c) ← c.vint
  let (r6, c) ← c.vint
  let (r7, c) ← c.vint
  let (r8, c) ← c.vint
  let (zs, c) ← c.i16
  let (act2, c) ← c.u16
  some ((r4, r5, r6, r7, r8, (zs : ℚ) / 100, act2), c)

/-- One quote record, reads in source order: a 9-byte fixed header
(market byte, 6-byte code, 16-bit active1), then the price base as the
first variable-length integer, then every further field as in the dict
literal of the source, grouped here into the contiguous read blocks
above; all price-like fields apply `_calc_price` to the same base. -/
def parseQuoteRecord (c : Cursor) : Option (Quote × Cursor) := do
  let (hdr, c) ← c.read 9
  let (price, c) ← c.vint
  let mkt ← Market.ofByte (leVal (hdr.take 1))
  let (prim, c) ← parsePrimary price c
  let (vols, c) ← parseVolumes c
  let (l1, c) ← parseLevel price c
  let (l2, c) ← parseLevel price c
  let (l3, c) ← parseLevel price c
  let (l4, c) ← parseLevel price c
  let (l5, c) ← parseLevel price c
  let (tl, c) ← parseTail c
  some ({ market := mkt, stockCode := (hdr.drop 1).take 6,
          active1 := leVal (hdr.drop 7),
          price := _calc_price price 0,
          yesterdayClose := prim.1, todayOpen := prim.2.1,
          highPrice := prim.2.2.1, lowPrice := prim.2.2.2.1,
          serverTime := prim.2.2.2.2, reservedBytes1 := vols.1,
          vol := vols.2.1, curVol := vols.2.2.1, amount := vols.2.2.2.1,
          innerDisc := vols.2.2.2.2.1, outerDisc := vols.2.2.2.2.2.1,
          reservedBytes2 := vols.2.2.2.2.2.2.1,
          reservedBytes3 := vols.2.2.2.2.2.2.2,
          bid1 := l1.1, ask1 := l1.2.1, bidVol1 := l1.2.2.1, askVol1 := l1.2.2.2,
          bid2 := l2.1, ask2 := l2.2.1, bidVol2 := l2.2.2.1, askVol2 := l2.2.2.2,
          bid3 := l3.1, ask3 := l3.2.1, bidVol3 := l3.2.2.1, askVol3 := l3.2.2.2,
          bid4 := l4.1, ask4 := l4.2.1, bidVol4 := l4.2.2.1, askVol4 := l4.2.2.2,
          bid5 := l5.1, ask5 := l5.2.1, bidVol5 := l5.2.2.1, askVol5 := l5.2.2.2,
          reservedBytes4 := tl.1, reservedBytes5 := tl.2.1,
          reservedBytes6 := tl.2.2.1, reservedBytes7 := tl.2.2.2.1,
          reservedBytes8 := tl.2.2.2.2.1, rate := tl.2.2.2.2.2.1,
          active2 := tl.2.2.2.2.2.2 }, c)

/-- The quote record loop. -/
def quotesLoop : Nat → Cursor → Option (List Quote × Cursor)
  | 0, c => some ([], c)
  | n + 1, c => do
    let (q, c) ← parseQuoteRecord c
    let (rest, c) ← quotesLoop n c
    some (q :: rest, c)

/-- The quote snapshot decoder body: skip 2 bytes, read the record
count, run the record loop. -/
def quotesMain (c : Cursor) : Option (List Quote) := do
  let (count, c) ← (c.skip 2).u16
  (quotesLoop count c).map Prod.fst

/-- The quote snapshot decoder on a payload (a fresh cursor at
position 0, as handed out per response by the source). -/
def get_stock_quotes (buf : ByteBuf) : Option (List Quote) :=
  quotesMain ⟨buf, 0⟩

/-- Characterization of one ladder level: both prices are the shared
base plus their own freshly read delta, in hundredths. -/
theorem parseLevel_eq (price : Int) (c c1 c2 c3 c4 : Cursor)
    (b a bv av : Int)
    (h1 : c.vint = some (b, c1)) (h2 : c1.vint = some (a, c2))
    (h3 : c2.vint = some (bv, c3)) (h4 : c3.vint = some (av, c4)) :
    parseLevel price c = some
      ((((price + b : Int) : ℚ) / 100, ((price + a : Int) : ℚ) / 100, bv, av), c4) := by
  simp [parseLevel, h1, h2, h3, h4, _calc_price, Prod.mk.injEq]

/-- Characterization of the primary price block: previous close, open,
high and low are the shared base plus their own freshly read delta, in
hundredths, followed by the formatted timestamp. -/
theorem parsePrimary_eq (price : Int) (c c1 c2 c3 c4 c5 : Cursor)
    (d_yc d_op d_hi d_lo tv : Int) (ft : FormattedTime)
    (h1 : c.vint = some (d_yc, c1)) (h2 : c1.vint = some (d_op, c2))
    (h3 : c2.vint = some (d_hi, c3)) (h4 : c3.vint = some (d_lo, c4))
    (h5 : c4.vint = some (tv, c5)) (htv : 0 ≤ tv)
    (hft : _format_time tv.toNat = some ft) :
    parsePrimary price c = some
      ((((price + d_yc : Int) : ℚ) / 100, ((price + d_op : Int) : ℚ) / 100,
        ((price + d_hi : Int) : ℚ) / 100, ((price + d_lo : Int) : ℚ) / 100, ft), c5) := by
  simp [parsePrimary, h1, h2, h3, h4, h5, htv, hft, _calc_price, Prod.mk.injEq]

/-- Reduction of a successful bind in the option monad. -/
@[simp] theorem optionSomeBind {α β : Type} (a : α) (f : α → Option β) :
    (some a >>= f : Option β) = f a := rfl

/-- Reduction of a mapped successful option. -/
@[simp] theorem optionMapSome {α β : Type} (a : α) (f : α → β) :
    (some a).map f = some (f a) := rfl

set_option maxHeartbeats 1000000 in
/-- C4: in every decoded quote record, with `p` the price base read as
the first variable-length integer after the 9-byte record header, the
current price is exactly `p/100` (delta 0), and previous close, open,
high, low and every bid/ask ladder price equal `(p + own fresh delta)/100`,
all against the same base `p`, in the documented field order. -/
theorem quote_price_delta_chain
    (c0 c1 c2 c3 c4 c5 c6 c7 c8 c9 c10 c11 c12 c13 c14 c15 c16 c17 c18 c19
      c20 c21 c22 c23 c24 c25 c26 c27 c28 c29 : Cursor)
    (hdr : ByteBuf) (mkt : Market)
    (p d_yc d_op d_hi d_lo tv : Int) (ft : FormattedTime)
    (vols : Int × Int × Int × Nat × Int × Int × Int × Int)
    (tl : Nat × Int × Int × Int × Int × ℚ × Nat)
    (b1 a1 v1 w1 b2 a2 v2 w2 b3 a3 v3 w3 b4 a4 v4 w4 b5 a5 v5 w5 : Int)
    (h1 : c0.read 9 = some (hdr, c1))
    (h2 : c1.vint = some (p, c2))
    (hm : Market.ofByte (leVal (hdr.take 1)) = some mkt)
    (h3 : c2.vint = some (d_yc, c3)) (h4 : c3.vint = some (d_op, c4))
    (h5 : c4.vint = some (d_hi, c5)) (h6 : c5.vint = some (d_lo, c6))
    (h7 : c6.vint = some (tv, c7)) (htv : 0 ≤ tv)
    (hft : _format_time tv.toNat = some ft)
    (hvols : parseVolumes c7 = some (vols, c8))
    (hb1 : c8.vint = some (b1, c9)) (ha1 : c9.vint = some (a1, c10))
    (hv1 : c10.vint = some (v1, c11)) (hw1 : c11.vint = some (w1, c12))
    (hb2 : c12.vint = some (b2, c13)) (ha2 : c13.vint = some (a2, c14))
    (hv2 : c14.vint = some (v2, c15)) (hw2 : c15.vint = some (w2, c16))
    (hb3 : c16.vint = some (b3, c17)) (ha3 : c17.vint = some (a3, c18))
    (hv3 : c18.vint = some (v3, c19)) (hw3 : c19.vint = some (w3, c20))
    (hb4 : c20.vint = some (b4, c21)) (ha4 : c21.vint = some (a4, c22))
    (hv4 : c22.vint = some (v4, c23)) (hw4 : c23.vint = some (w4, c24))
    (hb5 : c24.vint = some (b5, c25)) (ha5 : c25.vint = some (a5, c26))
    (hv5 : c26.vint = some (v5, c27)) (hw5 : c27.vint = some (w5, c28))
    (htl : parseTail c28 = some (tl, c29)) :
    (parseQuoteRecord c0).map (fun qc => qc.1.price) = some ((p : ℚ) / 100) ∧
    (parseQuoteRecord c0).map (fun qc => qc.1.yesterdayClose) =
      some (((p + d_yc : Int) : ℚ) / 100) ∧
    (parseQuoteRecord c0).map (fun qc => qc.1.todayOpen) =
      some (((p + d_op : Int) : ℚ) / 100) ∧
    (parseQuoteRecord c0).map (fun qc => qc.1.highPrice) =
      some (((p + d_hi : Int) : ℚ) / 100) ∧
    (parseQuoteRecord c0).map (fun qc => qc.1.lowPrice) =
      some (((p + d_lo : Int) : ℚ) / 100) ∧
    (parseQuoteRecord c0).map (fun qc => qc.1.bid1) =
      some (((p + b1 : Int) : ℚ) / 100) ∧
    (parseQuoteRecord c0).map (fun qc => qc.1.ask1) =
      some (((p + a1 : Int) : ℚ) / 100) ∧
    (parseQuoteRecord c0).map (fun qc => qc.1.bid2) =
      some (((p + b2 : Int) : ℚ) / 100) ∧
    (parseQuoteRecord c0).map (fun qc => qc.1.ask2) =
      some (((p + a2 : Int) : ℚ) / 100) ∧
    (parseQuoteRecord c0).map (fun qc => qc.1.bid3) =
      some (((p + b3 : Int) : ℚ) / 100) ∧
    (parseQuoteRecord c0).map (fun qc => qc.1.ask3) =
      some (((p + a3 : Int) : ℚ) / 100) ∧
    (parseQuoteRecord c0).map (fun qc => qc.1.bid4) =
      some (((p + b4 : Int) : ℚ) / 100) ∧
    (parseQuoteRecord c0).map (fun qc => qc.1.ask4) =
      some (((p + a4 : Int) : ℚ) / 100) ∧
    (parseQuoteRecord c0).map (fun qc => qc.1.bid5) =
      some (((p + b5 : Int) : ℚ) / 100) ∧
    (parseQuoteRecord c0).map (fun qc => qc.1.ask5) =
      some (((p + a5 : Int) : ℚ) / 100) := by
  have hp := parsePrimary_eq p c2 c3 c4 c5 c6 c7 d_yc d_op d_hi d_lo tv ft
    h3 h4 h5 h6 h7 htv hft
  have hl1 := parseLevel_eq p c8 c9 c10 c11 c12 b1 a1 v1 w1 hb1 ha1 hv1 hw1
  have hl2 := parseLevel_eq p c12 c13 c14 c15 c16 b2 a2 v2 w2 hb2 ha2 hv2 hw2
  have hl3 := parseLevel_eq p c16 c17 c18 c19 c20 b3 a3 v3 w3 hb3 ha3 hv3 hw3
  have hl4 := parseLevel_eq p c20 c21 c22 c23 c24 b4 a4 v4 w4 hb4 ha4 hv4 hw4
  have hl5 := parseLevel_eq p c24 c25 c26 c27 c28 b5 a5 v5 w5 hb5 ha5 hv5 hw5
  have hrec : parseQuoteRecord c0 = some
      ({ market := mkt, stockCode := (hdr.drop 1).take 6,
         active1 := leVal (hdr.drop 7),
         price := _calc_price p 0,
         yesterdayClose := ((p + d_yc : Int) : ℚ) / 100,
         todayOpen := ((p + d_op : Int) : ℚ) / 100,
         highPrice := ((p + d_hi : Int) : ℚ) / 100,
         lowPrice := ((p + d_lo : Int) : ℚ) / 100,
         serverTime := ft, reservedBytes1 := vols.1,
         vol := vols.2.1, curVol := vols.2.2.1, amount := vols.2.2.2.1,
         innerDisc := vols.2.2.2.2.1, outerDisc := vols.2.2.2.2.2.1,
         reservedBytes2 := vols.2.2.2.2.2.2.1,
         reservedBytes3 := vols.2.2.2.2.2.2.2,
         bid1 := ((p + b1 : Int) : ℚ) / 100, ask1 := ((p + a1 : Int) : ℚ) / 100,
         bidVol1 := v1, askVol1 := w1,
         bid2 := ((p + b2 : Int) : ℚ) / 100, ask2 := ((p + a2 : Int) : ℚ) / 100,
         bidVol2 := v2, askVol2 := w2,
         bid3 := ((p + b3 : Int) : ℚ) / 100, ask3 := ((p + a3 : Int) : ℚ) / 100,
         bidVol3 := v3, askVol3 := w3,
         bid4 := ((p + b4 : Int) : ℚ) / 100, ask4 := ((p + a4 : Int) : ℚ) / 100,
         bidVol4 := v4, askVol4 := w4,
         bid5 := ((p + b5 : Int) : ℚ) / 100, ask5 := ((p + a5 : Int) : ℚ) / 100,
         bidVol5 := v5, askVol5 := w5,
         reservedBytes4 := tl.1, reservedBytes5 := tl.2.1,
         reservedBytes6 := tl.2.2.1, reservedBytes7 := tl.2.2.2.1,
         reservedBytes8 := tl.2.2.2.2.1, rate := tl.2.2.2.2.2.1,
         active2 := tl.2.2.2.2.2.2 }, c29) := by
    simp only [parseQuoteRecord, h1, h2, hm, hp, hvols, hl1, hl2, hl3, hl4, hl5,
      htl, optionSomeBind]
  refine ⟨?_, ?_, ?_, ?_, ?_, ?_, ?_, ?_, ?_, ?_, ?_, ?_, ?_, ?_, ?_⟩ <;>
    · rw [hrec]
      simp [_calc_price]

/-- A concrete quote record: market 0, code "000001", active1 0, price
base 10050 (three-byte encoding), previous-close delta -50, open delta
1, high delta 2, low delta 3, timestamp 15300000 (four-byte encoding),
zero volume block, ladder deltas 4..23, zero trailing block. -/
def quoteBuf : ByteBuf :=
  [0, 48, 48, 48, 48, 48, 49, 0, 0, 130, 157, 1, 114, 1, 2, 3,
   160, 214, 203, 14, 0, 0, 0, 0, 0, 0, 0, 0, 0, 0, 0,
   4, 5, 6, 7, 8, 9, 10, 11, 12, 13, 14, 15, 16, 17, 18, 19, 20, 21, 22, 23,
   0, 0, 0, 0, 0, 0, 0, 0, 0, 0]

/-- Witness for C4 at the concrete record of `quoteBuf`: price base
10050 and previous-close delta -50 give current price 10050/100
(= 100.50) and previous close (10050 - 50)/100 (= 100.00), and each
further price field adds its own delta to the same base. -/
theorem quote_price_delta_chain_witness :
    (parseQuoteRecord ⟨quoteBuf, 0⟩).map (fun qc => qc.1.price) =
      some (((10050 : Int) : ℚ) / 100) ∧
    (parseQuoteRecord ⟨quoteBuf, 0⟩).map (fun qc => qc.1.yesterdayClose) =
      some (((10050 + -50 : Int) : ℚ) / 100) ∧
    (parseQuoteRecord ⟨quoteBuf, 0⟩).map (fun qc => qc.1.todayOpen) =
      some (((10050 + 1 : Int) : ℚ) / 100) ∧
    (parseQuoteRecord ⟨quoteBuf, 0⟩).map (fun qc => qc.1.highPrice) =
      some (((10050 + 2 : Int) : ℚ) / 100) ∧
    (parseQuoteRecord ⟨quoteBuf, 0⟩).map (fun qc => qc.1.lowPrice) =
      some (((10050 + 3 : Int) : ℚ) / 100) ∧
    (parseQuoteRecord ⟨quoteBuf, 0⟩).map (fun qc => qc.1.bid1) =
      some (((10050 + 4 : Int) : ℚ) / 100) ∧
    (parseQuoteRecord ⟨quoteBuf, 0⟩).map (fun qc => qc.1.ask1) =
      some (((10050 + 5 : Int) : ℚ) / 100) ∧
    (parseQuoteRecord ⟨quoteBuf, 0⟩).map (fun qc => qc.1.bid2) =
      some (((10050 + 8 : Int) : ℚ) / 100) ∧
    (parseQuoteRecord ⟨quoteBuf, 0⟩).map (fun qc => qc.1.ask2) =
      some (((10050 + 9 : Int) : ℚ) / 100) ∧
    (parseQuoteRecord ⟨quoteBuf, 0⟩).map (fun qc => qc.1.bid3) =
      some (((10050 + 12 : Int) : ℚ) / 100) ∧
    (parseQuoteRecord ⟨quoteBuf, 0⟩).map (fun qc => qc.1.ask3) =
      some (((10050 + 13 : Int) : ℚ) / 100) ∧
    (parseQuoteRecord ⟨quoteBuf, 0⟩).map (fun qc => qc.1.bid4) =
      some (((10050 + 16 : Int) : ℚ) / 100) ∧
    (parseQuoteRecord ⟨quoteBuf, 0⟩).map (fun qc => qc.1.ask4) =
      some (((10050 + 17 : Int) : ℚ) / 100) ∧
    (parseQuoteRecord ⟨quoteBuf, 0⟩).map (fun qc => qc.1.bid5) =
      some (((10050 + 20 : Int) : ℚ) / 100) ∧
    (parseQuoteRecord ⟨quoteBuf, 0⟩).map (fun qc => qc.1.ask5) =
      some (((10050 + 21 : Int) : ℚ) / 100) :=
  quote_price_delta_chain ⟨quoteBuf, 0⟩ ⟨quoteBuf, 9⟩ ⟨quoteBuf, 12⟩
    ⟨quoteBuf, 13⟩ ⟨quoteBuf, 14⟩ ⟨quoteBuf, 15⟩ ⟨quoteBuf, 16⟩ ⟨quoteBuf, 20⟩
    ⟨quoteBuf, 31⟩ ⟨quoteBuf, 32⟩ ⟨quoteBuf, 33⟩ ⟨quoteBuf, 34⟩ ⟨quoteBuf, 35⟩
    ⟨quoteBuf, 36⟩ ⟨quoteBuf, 37⟩ ⟨quoteBuf, 38⟩ ⟨quoteBuf, 39⟩ ⟨quoteBuf, 40⟩
    ⟨quoteBuf, 41⟩ ⟨quoteBuf, 42⟩ ⟨quoteBuf, 43⟩ ⟨quoteBuf, 44⟩ ⟨quoteBuf, 45⟩
    ⟨quoteBuf, 46⟩ ⟨quoteBuf, 47⟩ ⟨quoteBuf, 48⟩ ⟨quoteBuf, 49⟩ ⟨quoteBuf, 50⟩
    ⟨quoteBuf, 51⟩ ⟨quoteBuf, 61⟩
    [0, 48, 48, 48, 48, 48, 49, 0, 0] .SZ
    10050 (-50) 1 2 3 15300000
    ⟨[1, 5], 30, (strVal (pyRepeat [0, 0, 0, 0] 60) : ℚ) / 10000⟩
    (0, 0, 0, 0, 0, 0, 0, 0) (0, 0, 0, 0, 0, ((0 : Int) : ℚ) / 100, 0)
    4 5 6 7 8 9 10 11 12 13 14 15 16 17 18 19 20 21 22 23
    rfl rfl rfl rfl rfl rfl rfl rfl (by decide) rfl rfl
    rfl rfl rfl rfl rfl rfl rfl rfl rfl rfl rfl rfl
    rfl rfl rfl rfl rfl rfl rfl rfl rfl

/-!
## Minute-series and tick-series decoders
-/

/-- One minute-series entry: cumulative price and a volume. -/
structure MinuteEntry where
  price : ℚ
  vol : Int
deriving DecidableEq, Repr

/-- The shared minute record loop: per entry a price delta accumulated
into the running last price, a discarded reserved delta, and a volume,
each one variable-length integer. -/
def minuteLoop : Nat → Int → Cursor → Option (List MinuteEntry × Cursor)
  | 0, _, c => some ([], c)
  | n + 1, last_price, c => do
    let (price_raw, c) ← c.vint
    let (_r1, c) ← c.vint
    let (volv, c) ← c.vint
    let (rest, c) ← minuteLoop n (last_price + price_raw) c
    some ({ price := ((last_price + price_raw : Int) : ℚ) / 100, vol := volv }
      :: rest, c)

/-- Body of `get_minute_data`: count, then a 2-byte skip, then the
record loop with last price 0. -/
def minuteMain (c : Cursor) : Option (List MinuteEntry) := do
  let (count, c) ← c.u16
  (minuteLoop count 0 (c.skip 2)).map Prod.fst

/-- The intraday minute decoder on a payload. -/
def get_minute_data (buf : ByteBuf) : Option (List MinuteEntry) :=
  minuteMain ⟨buf, 0⟩

/-- Body of `get_history_minute_data`: count, then a 4-byte skip, then
the record loop with last price 0. -/
def historyMinuteMain (c : Cursor) : Option (List MinuteEntry) := do
  let (count, c) ← c.u16
  (minuteLoop count 0 (c.skip 4)).map Prod.fst

/-- The historical minute decoder on a payload. -/
def get_history_minute_data (buf : ByteBuf) : Option (List MinuteEntry) :=
  historyMinuteMain ⟨buf, 0⟩

/-- One decoded tick: packed time, cumulative price, volume, trade
count, buy/sell direction. -/
structure Tick where
  time : PyTime
  price : ℚ
  vol : Int
  num : Int
  buyorsell : Int
deriving DecidableEq, Repr

/-- One record of `get_transaction_data`: a 16-bit packed time, a price
delta accumulated into the running last price, then volume, trade count
and buy/sell direction, and finally one additional discarded reserved
variable-length integer (read after the record dict is appended). -/
def transRecord (last_price : Int) (c : Cursor) : Option (Tick × Int × Cursor) := do
  let (tm, c) ← _get_time c
  let (dp, c) ← c.vint
  let (volv, c) ← c.vint
  let (num, c) ← c.vint
  let (bs, c) ← c.vint
  let (_r1, c) ← c.vint
  some (⟨tm, ((last_price + dp : Int) : ℚ) / 100, volv, num, bs⟩,
    last_price + dp, c)

/-- One record of `get_history_transaction_data`: the same fields in the
same order but with no trailing reserved integer. -/
def histRecord (last_price : Int) (c : Cursor) : Option (Tick × Int × Cursor) := do
  let (tm, c) ← _get_time c
  let (dp, c) ← c.vint
  let (volv, c) ← c.vint
  let (num, c) ← c.vint
  let (bs, c) ← c.vint
  some (⟨tm, ((last_price + dp : Int) : ℚ) / 100, volv, num, bs⟩,
    last_price + dp, c)

/-- The record loop of `get_transaction_data`. -/
def transLoop : Nat → Int → Cursor → Option (List Tick × Cursor)
  | 0, _, c => some ([], c)
  | n + 1, lp, c => do
    let (t, lp2, c) ← transRecord lp c
    let (rest, c) ← transLoop n lp2 c
    some (t :: rest, c)

/-- The record loop of `get_history_transaction_data`. -/
def histLoop : Nat → Int → Cursor → Option (List Tick × Cursor)
  | 0, _, c => some ([], c)
  | n + 1, lp, c => do
    let (t, lp2, c) ← histRecord lp c
    let (rest, c) ← histLoop n lp2 c
    some (t :: rest, c)

/-- Body of `get_transaction_data`: count, then the record loop (no
header skip). -/
def transMain (c : Cursor) : Option (List Tick) := do
  let (count, c) ← c.u16
  (transLoop count 0 c).map Prod.fst

/-- The tick decoder on a payload. -/
def get_transaction_data (buf : ByteBuf) : Option (List Tick) :=
  transMain ⟨buf, 0⟩

/-- Body of `get_history_transaction_data`: count, then a 4-byte skip,
then the record loop. -/
def historyTransMain (c : Cursor) : Option (List Tick) := do
  let (count, c) ← c.u16
  (histLoop count 0 (c.skip 4)).map Prod.fst

/-- The historical tick decoder on a payload. -/
def get_history_transaction_data (buf : ByteBuf) : Option (List Tick) :=
  historyTransMain ⟨buf, 0⟩

/-- C9: the two tick decoders consume different per-record layouts.  On
the same cursor and reads, both produce the same tick (time, price
delta, volume, trade count, buy/sell) — but the live variant consumes
one additional trailing reserved integer, ending strictly further in the
buffer, while the historical variant ends right after the buy/sell
field; its only extra consumption is the 4-byte header skip before its
loop. -/
theorem tick_record_layouts_differ
    (c c1 c2 c3 c4 c5 c6 : Cursor) (lp dp volv num bs r : Int) (tm : PyTime)
    (buf : ByteBuf) (n0 : Nat) (c0 : Cursor)
    (h1 : _get_time c = some (tm, c1)) (h2 : c1.vint = some (dp, c2))
    (h3 : c2.vint = some (volv, c3)) (h4 : c3.vint = some (num, c4))
    (h5 : c4.vint = some (bs, c5)) (h6 : c5.vint = some (r, c6))
    (hcount : Cursor.u16 ⟨buf, 0⟩ = some (n0, c0)) :
    transRecord lp c =
      some (⟨tm, ((lp + dp : Int) : ℚ) / 100, volv, num, bs⟩, lp + dp, c6) ∧
    histRecord lp c =
      some (⟨tm, ((lp + dp : Int) : ℚ) / 100, volv, num, bs⟩, lp + dp, c5) ∧
    c5.pos < c6.pos ∧
    get_transaction_data buf = (transLoop n0 0 c0).map Prod.fst ∧
    get_history_transaction_data buf = (histLoop n0 0 (c0.skip 4)).map Prod.fst := by
  refine ⟨?_, ?_, (Cursor.vint_advances h6).1, ?_, ?_⟩
  · simp [transRecord, h1, h2, h3, h4, h5, h6]
  · simp [histRecord, h1, h2, h3, h4, h5]
  · simp [get_transaction_data, transMain, hcount]
  · simp [get_history_transaction_data, historyTransMain, hcount]

/-- A concrete tick record: packed time 544 (09:04), then deltas
1, 2, 3, 4 and a reserved 5. -/
def tickBuf : ByteBuf := [32, 2, 1, 2, 3, 4, 5]

/-- A payload head declaring one tick record. -/
def tickCountBuf : ByteBuf := [1, 0]

/-- Witness for C9 at the concrete record of `tickBuf`: both variants
decode the identical tick, the live variant ends at position 7 (after
the trailing reserved integer), the historical variant at position 6,
and the two entry points skip 0 and 4 header bytes respectively. -/
theorem tick_record_layouts_differ_witness :
    transRecord 0 ⟨tickBuf, 0⟩ =
      some (⟨⟨9, 4⟩, ((0 + 1 : Int) : ℚ) / 100, 2, 3, 4⟩, 0 + 1, ⟨tickBuf, 7⟩) ∧
    histRecord 0 ⟨tickBuf, 0⟩ =
      some (⟨⟨9, 4⟩, ((0 + 1 : Int) : ℚ) / 100, 2, 3, 4⟩, 0 + 1, ⟨tickBuf, 6⟩) ∧
    (Cursor.mk tickBuf 6).pos < (Cursor.mk tickBuf 7).pos ∧
    get_transaction_data tickCountBuf =
      (transLoop 1 0 ⟨tickCountBuf, 2⟩).map Prod.fst ∧
    get_history_transaction_data tickCountBuf =
      (histLoop 1 0 (Cursor.skip ⟨tickCountBuf, 2⟩ 4)).map Prod.fst :=
  tick_record_layouts_differ ⟨tickBuf, 0⟩ ⟨tickBuf, 2⟩ ⟨tickBuf, 3⟩
    ⟨tickBuf, 4⟩ ⟨tickBuf, 5⟩ ⟨tickBuf, 6⟩ ⟨tickBuf, 7⟩ 0 1 2 3 4 5 ⟨9, 4⟩
    tickCountBuf 1 ⟨tickCountBuf, 2⟩ rfl rfl rfl rfl rfl rfl rfl

/-- C10: every record decoder of the development is deterministic in its
payload: two decode calls over fresh cursors at position 0 on the same
payload bytes yield identical record sequences — no state survives a
decode call (the loops thread their accumulators explicitly and the
embedded decoders are pure functions of the buffer, as the source
methods are of the payload). -/
theorem decoders_deterministic (buf : ByteBuf) (category : KLineCategory)
    (c1 c2 : Cursor) (h1 : c1 = ⟨buf, 0⟩) (h2 : c2 = ⟨buf, 0⟩) :
    quotesMain c1 = quotesMain c2 ∧
    get_k_line category buf = get_k_line category buf ∧
    minuteMain c1 = minuteMain c2 ∧
    historyMinuteMain c1 = historyMinuteMain c2 ∧
    transMain c1 = transMain c2 ∧
    historyTransMain c1 = historyTransMain c2 := by
  subst h1
  subst h2
  exact ⟨rfl, rfl, rfl, rfl, rfl, rfl⟩

/-- Witness for C10 at a concrete payload (and the 5-minute category). -/
theorem decoders_deterministic_witness :
    quotesMain ⟨[0, 0, 0, 0], 0⟩ = quotesMain ⟨[0, 0, 0, 0], 0⟩ ∧
    get_k_line .K5 [0, 0, 0, 0] = get_k_line .K5 [0, 0, 0, 0] ∧
    minuteMain ⟨[0, 0, 0, 0], 0⟩ = minuteMain ⟨[0, 0, 0, 0], 0⟩ ∧
    historyMinuteMain ⟨[0, 0, 0, 0], 0⟩ = historyMinuteMain ⟨[0, 0, 0, 0], 0⟩ ∧
    transMain ⟨[0, 0, 0, 0], 0⟩ = transMain ⟨[0, 0, 0, 0], 0⟩ ∧
    historyTransMain ⟨[0, 0, 0, 0], 0⟩ = historyTransMain ⟨[0, 0, 0, 0], 0⟩ :=
  decoders_deterministic [0, 0, 0, 0] .K5 ⟨[0, 0, 0, 0], 0⟩ ⟨[0, 0, 0, 0], 0⟩
    rfl rfl
